import Mathlib

/-!
Verification of the PC-Builder resolution core (src/PC-Builder_bot.py).

Shallow embedding conventions:
* SQLite REAL columns are modelled as `ℚ`, INTEGER columns as `ℤ`,
  TEXT columns as `String`.  Python float constants (0.7, 0.3, 1.3, …)
  are modelled as the exact rationals they denote.
* Python `int(x)` (truncation towards zero) is `pyInt`; Python `//`
  (floor division) is modelled with `Int.fdiv` / `Rat.floor`.
* A Python dict holding the per-category budget plan is modelled as a
  function `Comp → Option ℚ` (`none` = key absent); dict assignment is
  the pointwise update `planSet`.
* SQL `SELECT … WHERE … ORDER BY … LIMIT n` is modelled as
  filter, stable insertion sort by the ORDER BY comparator, and `take n`
  (`head?` for LIMIT 1).  Tie order among rows equal under the ORDER BY
  keys is unspecified in SQLite; the model keeps table order.
* `LIKE '%' || x || '%'` is modelled as (case-sensitive) substring
  containment `substrB`.
* Catalog rows are modelled with all used columns present (non-NULL), so
  the `get_safe` fallback defaults of the source never fire.
-/

attribute [local semireducible] Rat.add Rat.mul Rat.sub Rat.inv

/-- Truncation towards zero on ℚ: Python `int(x)`. -/
def pyInt (q : ℚ) : ℤ := if 0 ≤ q then ⌊q⌋ else ⌈q⌉

/-- The ten component categories of the budget plan.
`case_` stands for the Python key 'case' (keyword in Lean). -/
inductive Comp
  | cpu | gpu | motherboard | ram | cooling_system | nvme | hdd | psu | ssd | case_
deriving DecidableEq, Repr

/-- A budget plan: Python dict from category to allocated amount. -/
def Plan : Type := Comp → Option ℚ

/-- Dict assignment `d[c] = v`. -/
def planSet (p : Plan) (c : Comp) (v : ℚ) : Plan :=
  fun c' => if c' = c then some v else p c'

/-- Dict read `d.get(c, 0)`. -/
def planGetD (p : Plan) (c : Comp) : ℚ := (p c).getD 0

/-- MIN_BUDGETS value per category (source lines 35-46). -/
def minBudget : Comp → ℚ
  | .cpu => 2699
  | .motherboard => 4499
  | .ram => 450
  | .cooling_system => 299
  | .psu => 899
  | .case_ => 1899
  | .gpu => 5499
  | .ssd => 950
  | .nvme => 1699
  | .hdd => 4699

/-- MIN_BUDGETS in Python dict insertion (= iteration) order. -/
def minOrder : List Comp :=
  [.cpu, .motherboard, .ram, .cooling_system, .psu, .case_, .gpu, .ssd, .nvme, .hdd]

/-- Profile name strings as used in the source. -/
def gamingT : String := "Игровой компьютер"

def graphicsT : String := "Компьютер для работы с графикой"

def officeT : String := "Офисный компьютер"

def serverT : String := "Сервер"

def homeT : String := "Домашний компьютер"

def devT : String := "Компьютер для программирования"

/-- Percentage table of the gaming profile. -/
def gamingDist : Plan := fun c => match c with
  | .cpu => some (2/10)
  | .gpu => some (3/10)
  | .motherboard => some (9/100)
  | .ram => some (1/10)
  | .cooling_system => some (4/100)
  | .nvme => some (5/100)
  | .hdd => some (5/100)
  | .psu => some (1/10)
  | .case_ => some (7/100)
  | .ssd => none

/-- Percentage table of the graphics-workstation profile. -/
def graphicsDist : Plan := fun c => match c with
  | .cpu => some (25/100)
  | .gpu => some (25/100)
  | .motherboard => some (9/100)
  | .ram => some (1/10)
  | .cooling_system => some (3/100)
  | .nvme => some (6/100)
  | .hdd => some (5/100)
  | .psu => some (1/10)
  | .case_ => some (7/100)
  | .ssd => none

/-- Percentage table of the office profile. -/
def officeDist : Plan := fun c => match c with
  | .cpu => some (2/10)
  | .gpu => some (5/100)
  | .motherboard => some (1/10)
  | .ram => some (15/100)
  | .cooling_system => some (1/10)
  | .ssd => some (2/10)
  | .psu => some (1/10)
  | .case_ => some (1/10)
  | .nvme => none
  | .hdd => none

/-- Percentage table of the server profile. -/
def serverDist : Plan := fun c => match c with
  | .cpu => some (21/100)
  | .gpu => some (2/100)
  | .motherboard => some (1/10)
  | .ram => some (19/100)
  | .cooling_system => some (1/10)
  | .nvme => some (1/10)
  | .hdd => some (1/10)
  | .psu => some (1/10)
  | .case_ => some (7/100)
  | .ssd => none

/-- Percentage table of the home profile. -/
def homeDist : Plan := fun c => match c with
  | .cpu => some (17/100)
  | .gpu => some (15/100)
  | .motherboard => some (1/10)
  | .ram => some (15/100)
  | .cooling_system => some (1/10)
  | .nvme => some (1/10)
  | .hdd => some (5/100)
  | .psu => some (1/10)
  | .case_ => some (1/10)
  | .ssd => none

/-- Percentage table of the programming profile. -/
def devDist : Plan := fun c => match c with
  | .cpu => some (25/100)
  | .gpu => some (1/10)
  | .motherboard => some (1/10)
  | .ram => some (13/100)
  | .cooling_system => some (7/100)
  | .ssd => some (1/10)
  | .nvme => some (1/10)
  | .psu => some (1/10)
  | .case_ => some (5/100)
  | .hdd => none

/-- Fallback percentage table (`distributions.get(pc_type, {...})`). -/
def defaultDist : Plan := fun c => match c with
  | .cpu => some (2/10)
  | .gpu => some (2/10)
  | .motherboard => some (1/10)
  | .ram => some (1/10)
  | .cooling_system => some (7/100)
  | .nvme => some (1/10)
  | .hdd => some (8/100)
  | .psu => some (1/10)
  | .case_ => some (5/100)
  | .ssd => none

/-- Table lookup `distributions.get(pc_type, default)`. -/
def distributionFor (pt : String) : Plan :=
  if pt = gamingT then gamingDist
  else if pt = graphicsT then graphicsDist
  else if pt = officeT then officeDist
  else if pt = serverT then serverDist
  else if pt = homeT then homeDist
  else if pt = devT then devDist
  else defaultDist

/-- Raw allocation: `{comp: int(total_budget * perc) for comp, perc in distribution}`. -/
def rawPlan (pt : String) (total : ℤ) : Plan :=
  fun c => (distributionFor pt c).map (fun perc => ((pyInt ((total : ℚ) * perc) : ℤ) : ℚ))

/-- One iteration of the minimum-floor loop for category `cm.1` with floor `cm.2`:
if the category is present and below its floor, reduce hdd by 70% and case by 30%
of the shortfall (clamped at zero) and raise the category to its floor. -/
def floorStep (p : Plan) (cm : Comp × ℚ) : Plan :=
  match p cm.1 with
  | none => p
  | some v =>
    if v < cm.2 then
      let needed := cm.2 - v
      let p1 := if cm.1 = Comp.hdd then p
                else planSet p .hdd (max 0 (planGetD p .hdd - needed * (7/10)))
      let p2 := if cm.1 = Comp.case_ then p1
                else planSet p1 .case_ (max 0 (planGetD p1 .case_ - needed * (3/10)))
      planSet p2 cm.1 cm.2
    else p

/-- The whole `for component, min_price in MIN_BUDGETS.items()` loop. -/
def applyMins (p : Plan) : Plan :=
  (minOrder.map (fun c => (c, minBudget c))).foldl floorStep p

/-- Scale each category of `l` that is present by `int(v * f)`. -/
def scaleList (l : List Comp) (f : ℚ) (p : Plan) : Plan :=
  l.foldl (fun q c =>
    match q c with
    | some v => planSet q c ((pyInt (v * f) : ℤ) : ℚ)
    | none => q) p

/-- Dynamic adaptation for expensive builds (`total_budget > 100000`). -/
def scaleStep (total : ℤ) (p : Plan) : Plan :=
  if total > 100000 then
    let scale := min (3/2 : ℚ) ((total : ℚ) / 100000)
    scaleList [.hdd, .case_] (8/10) (scaleList [.cpu, .gpu, .ram, .nvme] scale p)
  else p

/-- Office/server adjustment: cap gpu at 5000, cap nvme at 10000 and move
half of the (capped) nvme amount into ssd. -/
def adjustOfficeServer (pt : String) (p : Plan) : Plan :=
  if pt = officeT ∨ pt = serverT then
    let pa := planSet p .gpu (min (planGetD p .gpu) 5000)
    match pa .nvme with
    | some v =>
      let pb := planSet pa .nvme (min v 10000)
      planSet pb .ssd (planGetD pb .ssd + ((⌊min v 10000 / 2⌋ : ℤ) : ℚ))
    | none => pa
  else p

/-- Gaming adjustment: raise nvme to at least 15000; if ssd exceeds 5000
subtract 3000 from it. -/
def adjustGaming (pt : String) (p : Plan) : Plan :=
  if pt = gamingT then
    let p2 := planSet p .nvme (max (planGetD p .nvme) 15000)
    if planGetD p2 .ssd > 5000 then planSet p2 .ssd (planGetD p2 .ssd - 3000) else p2
  else p

/-- `PCBuilder.get_budget_distribution` (source lines 164-287). -/
def get_budget_distribution (pt : String) (total : ℤ) : Plan :=
  adjustGaming pt (adjustOfficeServer pt (scaleStep total (applyMins (rawPlan pt total))))

/-- Sum of the percentage shares of a distribution table. -/
def percSum (p : Plan) : ℚ :=
  ([Comp.cpu, .gpu, .motherboard, .ram, .cooling_system, .nvme, .hdd, .psu, .ssd, .case_].map
    (fun c => (p c).getD 0)).sum

/-! ## Catalog model

One record type per table of db.py, restricted to the columns that
`auto_build_pc`, `find_best_ready_pc` and `find_next_ready_pc` read. -/

/-- A row of the `cpu` table. -/
structure CPURec where
  cpu_name : String
  manufacturer : String
  socket : String
  cores : ℤ
  clock_frequency : ℚ
  ram_type : String
  heat_gen : ℚ
  energy : ℚ
  price : ℤ
deriving DecidableEq, Repr

/-- A row of the `motherboard` table. -/
structure MBRec where
  motherboard_name : String
  socket : String
  form_factor : String
  ram_type : String
  max_ram_freq : ℚ
  pcie_v : String
  energy : ℚ
  price : ℤ
deriving DecidableEq, Repr

/-- A row of the `ram` table. -/
structure RAMRec where
  ram_name : String
  ram_type : String
  moduls_in_set : ℤ
  amount : ℚ
  clock_freq : ℚ
  energy : ℚ
  price : ℤ
deriving DecidableEq, Repr

/-- A row of the `gpu` table. -/
structure GPURec where
  gpu_name : String
  length : ℚ
  gpu_memory : ℚ
  con_interface : String
  energy : ℚ
  price : ℤ
deriving DecidableEq, Repr

/-- A row of the `cooling_system` table; `ctype` is the column `type`
(a Lean keyword). -/
structure CoolRec where
  cs_name : String
  ctype : String
  socket : String
  power_dissipation : ℚ
  height : ℚ
  energy : ℚ
  price : ℤ
deriving DecidableEq, Repr

/-- A row of the `ssd` table (NVMe and SATA drives). -/
structure SSDRec where
  storage_name : String
  capacity : ℚ
  max_data_transfer_rate : ℚ
  connection_interface : String
  energy : ℚ
  price : ℤ
deriving DecidableEq, Repr

/-- A row of the `storage` table (HDD selection). -/
structure HDDRec where
  storage_name : String
  storage_type : String
  capacity : ℚ
  energy : ℚ
  price : ℤ
deriving DecidableEq, Repr

/-- A row of the `psu` table. -/
structure PSURec where
  psu_name : String
  power : ℚ
  certificate : String
  price : ℤ
deriving DecidableEq, Repr

/-- A row of the `cases` table. -/
structure CaseRec where
  case_name : String
  motherboard_form : String
  gpu_length : ℚ
  cooler_height : ℚ
  lcs_sup : String
  rating : ℚ
  price : ℤ
deriving DecidableEq, Repr

/-- A snapshot of the PC.db component tables. -/
structure Catalog where
  cpus : List CPURec
  motherboards : List MBRec
  rams : List RAMRec
  gpus : List GPURec
  coolers : List CoolRec
  ssds : List SSDRec
  storages : List HDDRec
  psus : List PSURec
  cases : List CaseRec
deriving DecidableEq, Repr

/-- Does `pat` match the first elements of the list? -/
def leadMatch [BEq α] : List α → List α → Bool
  | [], _ => true
  | _ :: _, [] => false
  | a :: as, b :: bs => a == b && leadMatch as bs

/-- Does `pat` occur as a contiguous subsequence? -/
def seqContains [BEq α] (pat : List α) : List α → Bool
  | [] => pat.isEmpty
  | b :: bs => leadMatch pat (b :: bs) || seqContains pat bs

/-- Substring containment: the SQL filter `col LIKE '%' || pat || '%'`. -/
def substrB (pat s : String) : Bool := seqContains pat.toList s.toList

/-- Insert `a` into `l` keeping `le`-sorted order; equal elements keep
their relative order (stable). -/
def insertLe (le : α → α → Bool) (a : α) : List α → List α
  | [] => [a]
  | b :: bs => if le a b then a :: b :: bs else b :: insertLe le a bs

/-- Stable insertion sort by the boolean total preorder `le`:
the model of SQL `ORDER BY`. -/
def sortLe (le : α → α → Bool) (l : List α) : List α := l.foldr (insertLe le) []

/-- `ORDER BY … LIMIT 1`: the first row of the sorted filtered rows. -/
def pick1 (le : α → α → Bool) (l : List α) : Option α := (sortLe le l).head?

/-- CPU ranking: `ORDER BY cores DESC, clock_frequency DESC, price ASC`. -/
def cpuLe (a b : CPURec) : Bool :=
  if a.cores = b.cores then
    if a.clock_frequency = b.clock_frequency then a.price ≤ b.price
    else b.clock_frequency < a.clock_frequency
  else b.cores < a.cores

/-- Motherboard ranking: `ORDER BY max_ram_freq DESC, price ASC`. -/
def mbLe (a b : MBRec) : Bool :=
  if a.max_ram_freq = b.max_ram_freq then a.price ≤ b.price
  else b.max_ram_freq < a.max_ram_freq

/-- RAM ranking: `ORDER BY amount DESC, price ASC`. -/
def ramLe (a b : RAMRec) : Bool :=
  if a.amount = b.amount then a.price ≤ b.price else b.amount < a.amount

/-- Cooler ranking: `ORDER BY power_dissipation ASC, price ASC`. -/
def coolLe (a b : CoolRec) : Bool :=
  if a.power_dissipation = b.power_dissipation then a.price ≤ b.price
  else a.power_dissipation < b.power_dissipation

/-- GPU ranking: `ORDER BY gpu_memory DESC, price ASC`. -/
def gpuLe (a b : GPURec) : Bool :=
  if a.gpu_memory = b.gpu_memory then a.price ≤ b.price
  else b.gpu_memory < a.gpu_memory

/-- SSD/NVMe ranking: `ORDER BY capacity DESC, max_data_transfer_rate DESC`. -/
def ssdLe (a b : SSDRec) : Bool :=
  if a.capacity = b.capacity then
    if a.max_data_transfer_rate = b.max_data_transfer_rate then true
    else b.max_data_transfer_rate < a.max_data_transfer_rate
  else b.capacity < a.capacity

/-- HDD ranking: `ORDER BY capacity DESC`. -/
def hddLe (a b : HDDRec) : Bool := b.capacity ≤ a.capacity

/-- Certificate sort key of the first PSU query: 'N' ↦ 1, recognized
certificates ↦ 0; any other value gives SQL NULL, which sorts before
both in ascending order and is modelled as -1. -/
def certRank (s : String) : ℤ :=
  if s = "N" then 1
  else if ["Standart", "Bronze", "Silver", "Gold", "Platinum", "Titanium"].contains s then 0
  else -1

/-- PSU ranking of the first query: certificate CASE ASC, price ASC. -/
def psuLe (a b : PSURec) : Bool :=
  if certRank a.certificate = certRank b.certificate then a.price ≤ b.price
  else certRank a.certificate < certRank b.certificate

/-- PSU ranking of the fallback query: `ORDER BY price ASC`. -/
def psu2Le (a b : PSURec) : Bool := a.price ≤ b.price

/-- Case ranking: `ORDER BY rating DESC, price ASC`. -/
def caseLe (a b : CaseRec) : Bool :=
  if a.rating = b.rating then a.price ≤ b.price else b.rating < a.rating

/-! ## auto_build_pc (source lines 289-605) -/

/-- RAM module limit: `2 if total_budget > 50000 else 1`. -/
def ramModulesLimit (total : ℤ) : ℤ := if total > 50000 then 2 else 1

/-- CPU query of stage 1 (price cap, optional brand filter, memory
generation), source lines 311-324. -/
def cpuPick (cat : Catalog) (budget : ℚ) (brand : Option String) (gen : String) :
    Option CPURec :=
  pick1 cpuLe (cat.cpus.filter fun c =>
    decide ((c.price : ℚ) ≤ budget) &&
    (match brand with | none => true | some b => c.manufacturer == b) &&
    substrB gen c.ram_type)

/-- Motherboard query of stage 1, source lines 330-343. -/
def mbPick (cat : Catalog) (budget : ℚ) (socket gen : String) : Option MBRec :=
  pick1 mbLe (cat.motherboards.filter fun m =>
    m.socket == socket && substrB gen m.ram_type && decide ((m.price : ℚ) ≤ budget))

/-- RAM query of stage 1, source lines 349-365. -/
def ramPick (cat : Catalog) (budget : ℚ) (gen : String) (maxFreq : ℚ) (modLimit : ℤ) :
    Option RAMRec :=
  pick1 ramLe (cat.rams.filter fun r =>
    substrB gen r.ram_type && decide (r.clock_freq ≤ maxFreq) &&
    decide ((r.price : ℚ) ≤ budget) && decide (r.moduls_in_set ≤ modLimit))

/-- One iteration of the `for ram_type in ['DDR5', 'DDR4']` loop: the
joint CPU/motherboard/RAM lookup for one memory generation. -/
def tryGen (cat : Catalog) (plan : Plan) (brand : Option String) (total : ℤ)
    (gen : String) : Option (CPURec × MBRec × RAMRec) :=
  match cpuPick cat (planGetD plan .cpu) brand gen with
  | none => none
  | some c =>
    match mbPick cat (planGetD plan .motherboard) c.socket gen with
    | none => none
    | some m =>
      match ramPick cat (planGetD plan .ram) gen m.max_ram_freq (ramModulesLimit total) with
      | none => none
      | some r => some (c, m, r)

/-- Stage 1: DDR5 first, then DDR4; if both fail the resolution fails. -/
def stage1 (cat : Catalog) (plan : Plan) (brand : Option String) (total : ℤ) :
    Option (CPURec × MBRec × RAMRec) :=
  match tryGen cat plan brand total "DDR5" with
  | some t => some t
  | none => tryGen cat plan brand total "DDR4"

/-- Stage 2: up to three cooling candidates matching the CPU socket with
20% dissipation headroom, source lines 385-399. -/
def coolerCandidates (cat : Catalog) (plan : Plan) (c : CPURec) : List CoolRec :=
  (sortLe coolLe (cat.coolers.filter fun cs =>
    substrB c.socket cs.socket &&
    decide ((cs.price : ℚ) ≤ planGetD plan .cooling_system) &&
    decide (cs.power_dissipation ≥ c.heat_gen * (12/10)))).take 3

/-- Stage 3 GPU query: price cap and interface compatible with the chosen
motherboard via the subquery on `motherboard_name`, source lines 403-416. -/
def gpuPick (cat : Catalog) (plan : Plan) (m : MBRec) : Option GPURec :=
  pick1 gpuLe (cat.gpus.filter fun g =>
    decide ((g.price : ℚ) ≤ planGetD plan .gpu) &&
    cat.motherboards.any fun m2 =>
      m2.motherboard_name == m.motherboard_name && m2.pcie_v == g.con_interface)

/-- Stage 4a NVMe query, source lines 428-437. -/
def nvmePick (cat : Catalog) (limit : ℚ) : Option SSDRec :=
  pick1 ssdLe (cat.ssds.filter fun s =>
    substrB "NVMe" s.connection_interface && decide ((s.price : ℚ) ≤ limit))

/-- Stage 4b SATA SSD query, source lines 446-455. -/
def ssdPick (cat : Catalog) (limit : ℚ) : Option SSDRec :=
  pick1 ssdLe (cat.ssds.filter fun s =>
    substrB "SATA" s.connection_interface && decide ((s.price : ℚ) ≤ limit))

/-- Stage 4c HDD query, source lines 464-473. -/
def hddPick (cat : Catalog) (limit : ℚ) : Option HDDRec :=
  pick1 hddLe (cat.storages.filter fun s =>
    s.storage_type == "HDD" && decide ((s.price : ℚ) ≤ limit))

/-- Stage 5 required wattage, source lines 481-489: floor to a multiple
of 50 after adding 100 W headroom, then profile multiplier with floor. -/
def requiredPowerCalc (pt : String) (tp : ℚ) : ℚ :=
  let base : ℚ := ((⌊(tp + 100) / 50⌋ : ℤ) : ℚ) * 50
  if pt = gamingT then max (base * (13/10)) 650
  else if pt = graphicsT then max (base * (12/10)) 550
  else max base 450

/-- Stage 5 price ceiling, source lines 491-493. -/
def psuBudgetCalc (planPsu : ℚ) (remaining : ℤ) : ℚ :=
  let pb := max planPsu 899
  if (remaining : ℚ) > pb then min (pb + ((Int.fdiv remaining 2 : ℤ) : ℚ)) (remaining : ℚ)
  else pb

/-- Stage 5 PSU queries: certificate-ranked query with price cap, then
the price-uncapped fallback, source lines 495-518. -/
def psuPick (cat : Catalog) (rp : ℚ) (budget : ℚ) : Option PSURec :=
  match pick1 psuLe (cat.psus.filter fun u =>
      decide (u.power ≥ rp) && decide ((u.price : ℚ) ≤ budget)) with
  | some u => some u
  | none => pick1 psu2Le (cat.psus.filter fun u => decide (u.power ≥ rp))

/-- Stage 6 case query with the conditionally appended GPU-length and
cooler predicates, source lines 527-563. -/
def casePick (cat : Catalog) (plan : Plan) (m : MBRec) (g? : Option GPURec)
    (coolers : List CoolRec) : Option CaseRec :=
  pick1 caseLe (cat.cases.filter fun k =>
    decide ((k.price : ℚ) ≤ planGetD plan .case_) &&
    substrB m.form_factor k.motherboard_form &&
    (match g? with
     | some g => decide (k.gpu_length ≥ g.length)
     | none => true) &&
    (match coolers.head? with
     | some cs =>
       if cs.ctype.toLower = "liquid" then k.lcs_sup == "Y"
       else decide (k.cooler_height ≥ cs.height)
     | none => true))

/-- Does a cooling candidate fit the chosen case, source lines 571-582. -/
def coolerFit (k : CaseRec) (cs : CoolRec) : Bool :=
  if cs.ctype.toLower = "liquid" then k.lcs_sup == "Y"
  else decide (cs.height ≤ k.cooler_height)

/-- Final cooler pick: first candidate in rank order fitting the case. -/
def finalCooler (k : CaseRec) (coolers : List CoolRec) : Option CoolRec :=
  coolers.find? (coolerFit k)

/-- The result dict of `auto_build_pc`: one optional record per category
plus the accumulated warning list (absent key = `none`, `warnings`
key = `[]` when no warning was recorded). -/
structure Config where
  cpu : Option CPURec
  motherboard : Option MBRec
  ram : Option RAMRec
  gpu : Option GPURec
  nvme : Option SSDRec
  ssd : Option SSDRec
  hdd : Option HDDRec
  psu : Option PSURec
  case_ : Option CaseRec
  cooling_system : Option CoolRec
  warnings : List String
deriving DecidableEq, Repr

/-- The required-component check of source lines 592-601: a Configuration
is surfaced only when CPU, motherboard, RAM and PSU are all present. -/
def finalize (conf : Config) : Option Config :=
  if conf.cpu.isSome && conf.motherboard.isSome && conf.ram.isSome && conf.psu.isSome
  then some conf else none

/-- `PCBuilder.auto_build_pc` (source lines 289-605): `none` models the
Python `return None` paths (stage-1 exhaustion and the final
required-component check). -/
def autoBuild (pt : String) (total : ℤ) (brand : Option String) (cat : Catalog) :
    Option Config :=
  let plan := get_budget_distribution pt total
  match stage1 cat plan brand total with
  | none => none
  | some (c, m, r) =>
    let remaining1 : ℤ := total - (c.price + m.price + r.price)
    let power1 : ℚ := c.energy + m.energy + r.energy * (r.moduls_in_set : ℚ)
    let coolers := coolerCandidates cat plan c
    let g? : Option GPURec :=
      if pt = gamingT ∨ pt = graphicsT then gpuPick cat plan m else none
    let remaining2 := remaining1 - (match g? with | some g => g.price | none => 0)
    let power2 := power1 + (match g? with | some g => g.energy | none => 0)
    let nv? : Option SSDRec :=
      if planGetD plan .nvme > 0 then
        nvmePick cat (min (planGetD plan .nvme) (remaining2 : ℚ))
      else none
    let remaining3 := remaining2 - (match nv? with | some s => s.price | none => 0)
    let power3 := power2 + (match nv? with | some s => s.energy | none => 0)
    let sd? : Option SSDRec :=
      if planGetD plan .ssd > 0 ∧ remaining3 > 0 then
        ssdPick cat (min (planGetD plan .ssd) (remaining3 : ℚ))
      else none
    let remaining4 := remaining3 - (match sd? with | some s => s.price | none => 0)
    let power4 := power3 + (match sd? with | some s => s.energy | none => 0)
    let hd? : Option HDDRec :=
      if planGetD plan .hdd > 0 ∧ remaining4 > 0 then
        hddPick cat (min (planGetD plan .hdd) (remaining4 : ℚ))
      else none
    let remaining5 := remaining4 - (match hd? with | some s => s.price | none => 0)
    let power5 := power4 + (match hd? with | some s => s.energy | none => 0)
    let rp := requiredPowerCalc pt power5
    let u? := psuPick cat rp (psuBudgetCalc (planGetD plan .psu) remaining5)
    let k? := casePick cat plan m g? coolers
    let cool? := match k? with
      | some k => finalCooler k coolers
      | none => none
    let warns :=
      (if (pt = gamingT ∨ pt = graphicsT) ∧ g? = none then
        ["Не удалось подобрать совместимую видеокарту"] else []) ++
      (if u? = none then
        ["Не удалось подобрать блок питания с требуемой мощностью"] else []) ++
      (match k? with
       | some k =>
         if finalCooler k coolers = none then
           ["Не удалось подобрать совместимую систему охлаждения"] else []
       | none => ["Не удалось подобрать совместимый корпус"])
    finalize
      { cpu := some c, motherboard := some m, ram := some r, gpu := g?, nvme := nv?,
        ssd := sd?, hdd := hd?, psu := u?, case_ := k?, cooling_system := cool?,
        warnings := warns }

/-- The whole `auto_build_pc` call including the enclosing try/except: a
store-level fault raises inside the `with` block and the handler of
source lines 603-605 returns `None`. -/
def autoBuildRun (storeFault : Bool) (pt : String) (total : ℤ) (brand : Option String)
    (cat : Catalog) : Option Config :=
  if storeFault then none else autoBuild pt total brand cat

/-- The running power draw recoverable from a finished configuration: the
sum the builder accumulated before PSU sizing (per-component energies,
RAM weighted by modules per set). -/
def configPower (conf : Config) : ℚ :=
  (match conf.cpu with | some c => c.energy | none => 0) +
  (match conf.motherboard with | some m => m.energy | none => 0) +
  (match conf.ram with | some r => r.energy * (r.moduls_in_set : ℚ) | none => 0) +
  (match conf.gpu with | some g => g.energy | none => 0) +
  (match conf.nvme with | some s => s.energy | none => 0) +
  (match conf.ssd with | some s => s.energy | none => 0) +
  (match conf.hdd with | some s => s.energy | none => 0)

/-- C5's spec wording of the PSU-sizing rule: headroom of 100 W, then
rounding UP to the next multiple of 50, then the profile multiplier with
its floor.  (The code rounds down; see `requiredPowerCalc`.) -/
def specRequiredPowerUp (pt : String) (tp : ℚ) : ℚ :=
  let base : ℚ := ((⌈(tp + 100) / 50⌉ : ℤ) : ℚ) * 50
  if pt = gamingT then max (base * (13/10)) 650
  else if pt = graphicsT then max (base * (12/10)) 550
  else max base 450

/-- The amended C5 wording: headroom of 100 W, rounding DOWN to a
multiple of 50, then the profile multiplier with its floor. -/
def specRequiredPowerDown (pt : String) (tp : ℚ) : ℚ :=
  let base : ℚ := 50 * ((⌊(tp + 100) / 50⌋ : ℤ) : ℚ)
  if pt = gamingT then max ((13/10) * base) 650
  else if pt = graphicsT then max ((12/10) * base) 550
  else max base 450

/-- C6's spec wording of the PSU price ceiling: half of the surplus of
the remaining budget over the ceiling is added, capped at the remaining
budget.  (The code adds half of the remaining budget itself; see
`psuBudgetCalc`.) -/
def specPsuBudgetSurplus (planPsu : ℚ) (remaining : ℤ) : ℚ :=
  let pb := max planPsu 899
  if (remaining : ℚ) > pb then min (pb + ((remaining : ℚ) - pb) / 2) (remaining : ℚ)
  else pb

/-- The amended C6 wording: half of the remaining budget (integer-halved,
rounded towards minus infinity) is added, capped at the remaining budget. -/
def specPsuBudgetRemHalf (planPsu : ℚ) (remaining : ℤ) : ℚ :=
  let pb := max planPsu 899
  if (remaining : ℚ) > pb then min (((Int.fdiv remaining 2 : ℤ) : ℚ) + pb) (remaining : ℚ)
  else pb

/-! ## Ready-made PC queries (source lines 67-146) -/

/-- A row of the `pc_profiles` table; `ptype` is the column `type`. -/
structure PCProfile where
  ptype : String
  min_cpu_cores : ℤ
  min_ram : ℤ
  gpu_required : Bool
  min_ssd_gb : ℤ
deriving DecidableEq, Repr

/-- A row of the `pc` table, restricted to the used columns. -/
structure PCRec where
  pc_name : String
  cores : ℤ
  ram : ℤ
  ssd : ℤ
  video_card_type : String
  rating : ℚ
  price : ℤ
deriving DecidableEq, Repr

/-- The tables consulted by the ready-made-PC queries. -/
structure PCDb where
  pc_profiles : List PCProfile
  pcs : List PCRec
deriving DecidableEq, Repr

/-- Ready-made PC ranking: `ORDER BY price DESC, rating DESC`. -/
def pcLe (a b : PCRec) : Bool :=
  if a.price = b.price then b.rating ≤ a.rating else b.price < a.price

/-- `PCBuilder.find_best_ready_pc` (source lines 67-104). -/
def find_best_ready_pc (db : PCDb) (profile_type : String) (budget : ℤ) :
    Option PCRec :=
  match (db.pc_profiles.filter (fun pr => pr.ptype == profile_type)).head? with
  | none => none
  | some pr =>
    pick1 pcLe (db.pcs.filter fun pc =>
      decide (pc.cores ≥ pr.min_cpu_cores) && decide (pc.ram ≥ pr.min_ram) &&
      decide (pc.ssd ≥ pr.min_ssd_gb) && decide (pc.price ≤ budget) &&
      (if pr.gpu_required then substrB "Discrete" pc.video_card_type else true))

/-- `PCBuilder.find_next_ready_pc` (source lines 106-146): the same query
with the exclusion condition appended only when the list is non-empty. -/
def find_next_ready_pc (db : PCDb) (profile_type : String) (budget : ℤ)
    (exclude_names : List String) : Option PCRec :=
  match (db.pc_profiles.filter (fun pr => pr.ptype == profile_type)).head? with
  | none => none
  | some pr =>
    pick1 pcLe (db.pcs.filter fun pc =>
      decide (pc.cores ≥ pr.min_cpu_cores) && decide (pc.ram ≥ pr.min_ram) &&
      decide (pc.ssd ≥ pr.min_ssd_gb) && decide (pc.price ≤ budget) &&
      (if pr.gpu_required then substrB "Discrete" pc.video_card_type else true) &&
      (if exclude_names.isEmpty then true else !(exclude_names.contains pc.pc_name)))

/-! ## Concrete catalog snapshots used as witnesses -/

/-- The empty catalog: every table empty. -/
def emptyCat : Catalog :=
  { cpus := [], motherboards := [], rams := [], gpus := [], coolers := [],
    ssds := [], storages := [], psus := [], cases := [] }

/-- A catalog on which a gaming build succeeds at budget 20000 but fails
at budget 60000: the larger CPU budget selects the 8-core CPU on socket
S2, for which no motherboard exists. -/
def monoCat : Catalog where
  cpus := [
    { cpu_name := "A", manufacturer := "Intel", socket := "S1", cores := 4,
      clock_frequency := 3, ram_type := "DDR5", heat_gen := 65, energy := 65,
      price := 3000 },
    { cpu_name := "B", manufacturer := "Intel", socket := "S2", cores := 8,
      clock_frequency := 4, ram_type := "DDR5", heat_gen := 100, energy := 100,
      price := 9000 }]
  motherboards := [
    { motherboard_name := "M1", socket := "S1", form_factor := "ATX",
      ram_type := "DDR5", max_ram_freq := 6000, pcie_v := "PCIe 4.0",
      energy := 30, price := 4000 }]
  rams := [
    { ram_name := "R1", ram_type := "DDR5", moduls_in_set := 1, amount := 16,
      clock_freq := 5000, energy := 5, price := 1500 }]
  gpus := []
  coolers := []
  ssds := []
  storages := []
  psus := [{ psu_name := "P1", power := 700, certificate := "Bronze", price := 2500 }]
  cases := []

/-! ## Helper lemmas: sorted selection -/

theorem mem_insertLe {le : α → α → Bool} {a x : α} {l : List α}
    (h : x ∈ insertLe le a l) : x = a ∨ x ∈ l := by
  induction l with
  | nil => simpa [insertLe] using h
  | cons b bs ih =>
    unfold insertLe at h
    by_cases hle : le a b = true
    · rw [if_pos hle] at h
      exact List.mem_cons.mp h
    · rw [if_neg hle] at h
      rcases List.mem_cons.mp h with h1 | h1
      · exact Or.inr (by simp [h1])
      · rcases ih h1 with h2 | h2
        · exact Or.inl h2
        · exact Or.inr (List.mem_cons_of_mem _ h2)

theorem mem_sortLe {le : α → α → Bool} {x : α} {l : List α}
    (h : x ∈ sortLe le l) : x ∈ l := by
  induction l with
  | nil => simp [sortLe] at h
  | cons b bs ih =>
    unfold sortLe at h
    rcases mem_insertLe h with h1 | h1
    · simp [h1]
    · exact List.mem_cons_of_mem _ (ih h1)

theorem pick1_mem {le : α → α → Bool} {x : α} {l : List α}
    (h : pick1 le l = some x) : x ∈ l := by
  unfold pick1 at h
  cases hs : sortLe le l with
  | nil => rw [hs] at h; cases h
  | cons b bs =>
    rw [hs] at h
    cases h
    exact mem_sortLe (by rw [hs]; exact List.mem_cons_self _ _)

/-! ## Helper lemmas: plan updates and the floor loop -/

theorem planSet_same (p : Plan) (c : Comp) (v : ℚ) : planSet p c v c = some v := by
  simp [planSet]

theorem planSet_ne (p : Plan) {c a : Comp} (v : ℚ) (h : a ≠ c) :
    planSet p c v a = p a := by
  simp [planSet, h]

theorem floorStep_eq_of_none (p : Plan) (cm : Comp × ℚ) (h : p cm.1 = none) :
    floorStep p cm = p := by
  unfold floorStep
  rw [h]

theorem floorStep_eq_of_ge (p : Plan) (cm : Comp × ℚ) (v : ℚ)
    (h : p cm.1 = some v) (hge : ¬ v < cm.2) : floorStep p cm = p := by
  unfold floorStep
  rw [h]
  exact if_neg hge

theorem floorStep_eq_of_lt (p : Plan) (cm : Comp × ℚ) (v : ℚ)
    (h : p cm.1 = some v) (hlt : v < cm.2) :
    floorStep p cm =
      planSet
        (if cm.1 = Comp.case_ then
          (if cm.1 = Comp.hdd then p
           else planSet p .hdd (max 0 (planGetD p .hdd - (cm.2 - v) * (7/10))))
         else planSet
          (if cm.1 = Comp.hdd then p
           else planSet p .hdd (max 0 (planGetD p .hdd - (cm.2 - v) * (7/10))))
          .case_
          (max 0 (planGetD
            (if cm.1 = Comp.hdd then p
             else planSet p .hdd (max 0 (planGetD p .hdd - (cm.2 - v) * (7/10))))
            .case_ - (cm.2 - v) * (3/10))))
        cm.1 cm.2 := by
  unfold floorStep
  rw [h]
  dsimp only
  rw [if_pos hlt]

/-- After its own floor iteration a present category is at or above its floor. -/
theorem floorStep_self (p : Plan) (c : Comp) (mq v : ℚ)
    (h : floorStep p (c, mq) c = some v) : mq ≤ v := by
  cases hpc : p c with
  | none =>
    rw [floorStep_eq_of_none p _ hpc] at h
    rw [hpc] at h
    cases h
  | some v0 =>
    by_cases hlt : v0 < mq
    · rw [floorStep_eq_of_lt p (c, mq) v0 hpc hlt, planSet_same] at h
      cases h
      exact le_refl _
    · rw [floorStep_eq_of_ge p (c, mq) v0 hpc hlt, hpc] at h
      cases h
      exact le_of_not_lt hlt

/-- A floor iteration for another category touches only that category,
hdd and case. -/
theorem floorStep_other (p : Plan) (cm : Comp × ℚ) (a : Comp)
    (h1 : a ≠ cm.1) (h2 : a ≠ Comp.hdd) (h3 : a ≠ Comp.case_) :
    floorStep p cm a = p a := by
  cases hpc : p cm.1 with
  | none => rw [floorStep_eq_of_none p _ hpc]
  | some v0 =>
    by_cases hlt : v0 < cm.2
    · rw [floorStep_eq_of_lt p cm v0 hpc hlt, planSet_ne _ _ h1]
      by_cases hc : cm.1 = Comp.case_
      · rw [if_pos hc]
        by_cases hh : cm.1 = Comp.hdd
        · rw [if_pos hh]
        · rw [if_neg hh, planSet_ne _ _ h2]
      · rw [if_neg hc, planSet_ne _ _ h3]
        by_cases hh : cm.1 = Comp.hdd
        · rw [if_pos hh]
        · rw [if_neg hh, planSet_ne _ _ h2]
    · rw [floorStep_eq_of_ge p cm v0 hpc hlt]

/-- Later floor iterations keep the case amount non-negative. -/
theorem floorStep_case_nonneg (p : Plan) (cm : Comp × ℚ) (hne : cm.1 ≠ Comp.case_)
    (hp : ∀ v, p Comp.case_ = some v → 0 ≤ v) :
    ∀ v, floorStep p cm Comp.case_ = some v → 0 ≤ v := by
  intro v h
  cases hpc : p cm.1 with
  | none => rw [floorStep_eq_of_none p _ hpc] at h; exact hp v h
  | some v0 =>
    by_cases hlt : v0 < cm.2
    · rw [floorStep_eq_of_lt p cm v0 hpc hlt,
        planSet_ne _ _ (Ne.symm hne), if_neg hne, planSet_same] at h
      cases h
      exact le_max_left _ _
    · rw [floorStep_eq_of_ge p cm v0 hpc hlt] at h
      exact hp v h

/-- Later floor iterations keep the hdd amount non-negative. -/
theorem floorStep_hdd_nonneg (p : Plan) (cm : Comp × ℚ) (hne : cm.1 ≠ Comp.hdd)
    (hp : ∀ v, p Comp.hdd = some v → 0 ≤ v) :
    ∀ v, floorStep p cm Comp.hdd = some v → 0 ≤ v := by
  intro v h
  cases hpc : p cm.1 with
  | none => rw [floorStep_eq_of_none p _ hpc] at h; exact hp v h
  | some v0 =>
    by_cases hlt : v0 < cm.2
    · rw [floorStep_eq_of_lt p cm v0 hpc hlt,
        planSet_ne _ _ (Ne.symm hne)] at h
      by_cases hc : cm.1 = Comp.case_
      · rw [if_pos hc, if_neg hne, planSet_same] at h
        cases h
        exact le_max_left _ _
      · rw [if_neg hc, planSet_ne _ _ (by decide : Comp.hdd ≠ Comp.case_),
          if_neg hne, planSet_same] at h
        cases h
        exact le_max_left _ _
    · rw [floorStep_eq_of_ge p cm v0 hpc hlt] at h
      exact hp v h

/-! ## Helper lemmas: the scaling step -/

theorem pyInt_nonneg {q : ℚ} (h : 0 ≤ q) : (0 : ℚ) ≤ ((pyInt q : ℤ) : ℚ) := by
  unfold pyInt
  rw [if_pos h]
  have : (0 : ℤ) ≤ ⌊q⌋ := by
    rw [Int.le_floor]
    exact_mod_cast h
  exact_mod_cast this

theorem pyInt_ge {q f : ℚ} {n : ℤ} (hn : 0 ≤ n) (hq : (n : ℚ) ≤ q) (hf : 1 ≤ f) :
    ((n : ℤ) : ℚ) ≤ ((pyInt (q * f) : ℤ) : ℚ) := by
  have hq0 : (0 : ℚ) ≤ q := le_trans (by exact_mod_cast hn) hq
  have hqf : (n : ℚ) ≤ q * f := by
    calc (n : ℚ) ≤ q := hq
    _ = q * 1 := by ring
    _ ≤ q * f := by exact mul_le_mul_of_nonneg_left hf hq0
  have h0 : (0 : ℚ) ≤ q * f := le_trans (by exact_mod_cast hn) hqf
  unfold pyInt
  rw [if_pos h0]
  have : n ≤ ⌊q * f⌋ := Int.le_floor.mpr hqf
  exact_mod_cast this

/-- Scaling a plan preserves an integer lower bound when the factor is ≥ 1. -/
theorem scaleList_bound (l : List Comp) (f : ℚ) (c : Comp) (n : ℤ)
    (hn : 0 ≤ n) (hf : 1 ≤ f) :
    ∀ p : Plan, (∀ v, p c = some v → (n : ℚ) ≤ v) →
      ∀ v, scaleList l f p c = some v → (n : ℚ) ≤ v := by
  induction l with
  | nil => intro p hp v h; exact hp v h
  | cons a as ih =>
    intro p hp v h
    unfold scaleList at h
    rw [List.foldl_cons] at h
    refine ih _ ?_ v h
    intro w hw
    by_cases hac : c = a
    · subst hac
      cases hpc : p c with
      | none => rw [hpc] at hw; exact hp w hw
      | some v0 =>
        rw [hpc] at hw
        dsimp only at hw
        rw [planSet_same] at hw
        cases hw
        exact pyInt_ge hn (hp v0 hpc) hf
    · cases hpc : p a with
      | none => rw [hpc] at hw; exact hp w hw
      | some v0 =>
        rw [hpc] at hw
        dsimp only at hw
        rw [planSet_ne _ _ hac] at hw
        exact hp w hw

/-- Scaling a plan preserves non-negativity when the factor is ≥ 0. -/
theorem scaleList_nonneg (l : List Comp) (f : ℚ) (c : Comp) (hf : 0 ≤ f) :
    ∀ p : Plan, (∀ v, p c = some v → 0 ≤ v) →
      ∀ v, scaleList l f p c = some v → 0 ≤ v := by
  induction l with
  | nil => intro p hp v h; exact hp v h
  | cons a as ih =>
    intro p hp v h
    unfold scaleList at h
    rw [List.foldl_cons] at h
    refine ih _ ?_ v h
    intro w hw
    by_cases hac : c = a
    · subst hac
      cases hpc : p c with
      | none => rw [hpc] at hw; exact hp w hw
      | some v0 =>
        rw [hpc] at hw
        dsimp only at hw
        rw [planSet_same] at hw
        cases hw
        exact pyInt_nonneg (mul_nonneg (hp v0 hpc) hf)
    · cases hpc : p a with
      | none => rw [hpc] at hw; exact hp w hw
      | some v0 =>
        rw [hpc] at hw
        dsimp only at hw
        rw [planSet_ne _ _ hac] at hw
        exact hp w hw

/-- Scaling leaves categories outside the scaled list unchanged. -/
theorem scaleList_not_mem (l : List Comp) (f : ℚ) (c : Comp) (hc : c ∉ l) :
    ∀ p : Plan, scaleList l f p c = p c := by
  induction l with
  | nil => intro p; rfl
  | cons a as ih =>
    intro p
    unfold scaleList
    rw [List.foldl_cons]
    have hca : c ≠ a := fun h => hc (by simp [h])
    have hcs : c ∉ as := fun h => hc (List.mem_cons_of_mem _ h)
    have := ih hcs
    unfold scaleList at this
    rw [this]
    cases hpc : p a with
    | none => rfl
    | some v0 => exact planSet_ne _ _ hca

/-! ## Per-category bounds after the minimum-floor loop -/

theorem applyMins_cpu (p : Plan) : ∀ v, applyMins p Comp.cpu = some v → (2699 : ℚ) ≤ v := by
  intro v h
  simp only [applyMins, minOrder, minBudget, List.map, List.foldl] at h
  simp only [floorStep_other, ne_eq, reduceCtorEq, not_false_eq_true] at h
  exact floorStep_self _ _ _ _ h

theorem applyMins_motherboard (p : Plan) :
    ∀ v, applyMins p Comp.motherboard = some v → (4499 : ℚ) ≤ v := by
  intro v h
  simp only [applyMins, minOrder, minBudget, List.map, List.foldl] at h
  simp only [floorStep_other, ne_eq, reduceCtorEq, not_false_eq_true] at h
  exact floorStep_self _ _ _ _ h

theorem applyMins_ram (p : Plan) : ∀ v, applyMins p Comp.ram = some v → (450 : ℚ) ≤ v := by
  intro v h
  simp only [applyMins, minOrder, minBudget, List.map, List.foldl] at h
  simp only [floorStep_other, ne_eq, reduceCtorEq, not_false_eq_true] at h
  exact floorStep_self _ _ _ _ h

theorem applyMins_cooling (p : Plan) :
    ∀ v, applyMins p Comp.cooling_system = some v → (299 : ℚ) ≤ v := by
  intro v h
  simp only [applyMins, minOrder, minBudget, List.map, List.foldl] at h
  simp only [floorStep_other, ne_eq, reduceCtorEq, not_false_eq_true] at h
  exact floorStep_self _ _ _ _ h

theorem applyMins_psu (p : Plan) : ∀ v, applyMins p Comp.psu = some v → (899 : ℚ) ≤ v := by
  intro v h
  simp only [applyMins, minOrder, minBudget, List.map, List.foldl] at h
  simp only [floorStep_other, ne_eq, reduceCtorEq, not_false_eq_true] at h
  exact floorStep_self _ _ _ _ h

theorem applyMins_gpu (p : Plan) : ∀ v, applyMins p Comp.gpu = some v → (5499 : ℚ) ≤ v := by
  intro v h
  simp only [applyMins, minOrder, minBudget, List.map, List.foldl] at h
  simp only [floorStep_other, ne_eq, reduceCtorEq, not_false_eq_true] at h
  exact floorStep_self _ _ _ _ h

theorem applyMins_ssd (p : Plan) : ∀ v, applyMins p Comp.ssd = some v → (950 : ℚ) ≤ v := by
  intro v h
  simp only [applyMins, minOrder, minBudget, List.map, List.foldl] at h
  simp only [floorStep_other, ne_eq, reduceCtorEq, not_false_eq_true] at h
  exact floorStep_self _ _ _ _ h

theorem applyMins_nvme (p : Plan) : ∀ v, applyMins p Comp.nvme = some v → (1699 : ℚ) ≤ v := by
  intro v h
  simp only [applyMins, minOrder, minBudget, List.map, List.foldl] at h
  simp only [floorStep_other, ne_eq, reduceCtorEq, not_false_eq_true] at h
  exact floorStep_self _ _ _ _ h

theorem applyMins_hdd (p : Plan) : ∀ v, applyMins p Comp.hdd = some v → (4699 : ℚ) ≤ v := by
  intro v h
  simp only [applyMins, minOrder, minBudget, List.map, List.foldl] at h
  exact floorStep_self _ _ _ _ h

theorem applyMins_case_nonneg (p : Plan) :
    ∀ v, applyMins p Comp.case_ = some v → (0 : ℚ) ≤ v := by
  intro v h
  simp only [applyMins, minOrder, minBudget, List.map, List.foldl] at h
  exact floorStep_case_nonneg _ _ (by decide)
    (floorStep_case_nonneg _ _ (by decide)
      (floorStep_case_nonneg _ _ (by decide)
        (floorStep_case_nonneg _ _ (by decide)
          (fun w hw => le_trans (by norm_num) (floorStep_self _ _ _ _ hw))))) v h

/-- Every category present after the minimum-floor loop is non-negative
(irrespective of the raw amounts). -/
theorem applyMins_nonneg (p : Plan) (c : Comp) :
    ∀ v, applyMins p c = some v → (0 : ℚ) ≤ v := by
  intro v h
  cases c with
  | cpu => exact le_trans (by norm_num) (applyMins_cpu p v h)
  | gpu => exact le_trans (by norm_num) (applyMins_gpu p v h)
  | motherboard => exact le_trans (by norm_num) (applyMins_motherboard p v h)
  | ram => exact le_trans (by norm_num) (applyMins_ram p v h)
  | cooling_system => exact le_trans (by norm_num) (applyMins_cooling p v h)
  | nvme => exact le_trans (by norm_num) (applyMins_nvme p v h)
  | hdd => exact le_trans (by norm_num) (applyMins_hdd p v h)
  | psu => exact le_trans (by norm_num) (applyMins_psu p v h)
  | ssd => exact le_trans (by norm_num) (applyMins_ssd p v h)
  | case_ => exact applyMins_case_nonneg p v h

/-! ## Preservation through scaling and profile adjustments -/

theorem scaleStep_bound (total : ℤ) (c : Comp) (n : ℤ) (hn : 0 ≤ n)
    (hh : c ≠ Comp.hdd) (hcs : c ≠ Comp.case_) (p : Plan)
    (hp : ∀ v, p c = some v → (n : ℚ) ≤ v) :
    ∀ v, scaleStep total p c = some v → (n : ℚ) ≤ v := by
  intro v h
  unfold scaleStep at h
  by_cases ht : total > 100000
  · rw [if_pos ht] at h
    rw [scaleList_not_mem _ _ c (by simp [hh, hcs])] at h
    have hsc : (1 : ℚ) ≤ min (3/2 : ℚ) ((total : ℚ) / 100000) := by
      refine le_min (by norm_num) ?_
      rw [le_div_iff₀ (by norm_num)]
      have : (100000 : ℚ) < (total : ℚ) := by exact_mod_cast ht
      linarith
    exact scaleList_bound _ _ c n hn hsc p hp v h
  · rw [if_neg ht] at h
    exact hp v h

theorem scaleStep_nonneg (total : ℤ) (c : Comp) (p : Plan)
    (hp : ∀ v, p c = some v → (0 : ℚ) ≤ v) :
    ∀ v, scaleStep total p c = some v → (0 : ℚ) ≤ v := by
  intro v h
  unfold scaleStep at h
  by_cases ht : total > 100000
  · rw [if_pos ht] at h
    have hsc : (0 : ℚ) ≤ min (3/2 : ℚ) ((total : ℚ) / 100000) := by
      refine le_min (by norm_num) ?_
      have : (100000 : ℚ) < (total : ℚ) := by exact_mod_cast ht
      positivity
    exact scaleList_nonneg _ _ c (by norm_num) _
      (scaleList_nonneg _ _ c hsc p hp) v h
  · rw [if_neg ht] at h
    exact hp v h

theorem planGetD_nonneg (p : Plan) (c : Comp)
    (hp : ∀ v, p c = some v → (0 : ℚ) ≤ v) : (0 : ℚ) ≤ planGetD p c := by
  unfold planGetD
  cases hx : p c with
  | none => exact le_refl (0 : ℚ)
  | some w => exact hp w hx

theorem adjOS_other (pt : String) (p : Plan) (c : Comp)
    (h1 : c ≠ Comp.gpu) (h2 : c ≠ Comp.nvme) (h3 : c ≠ Comp.ssd) :
    adjustOfficeServer pt p c = p c := by
  unfold adjustOfficeServer
  by_cases hpt : pt = officeT ∨ pt = serverT
  · rw [if_pos hpt]
    dsimp only
    rw [planSet_ne _ _ (by decide : Comp.nvme ≠ Comp.gpu)]
    cases hn : p Comp.nvme with
    | none => exact planSet_ne _ _ h1
    | some w =>
      dsimp only
      rw [planSet_ne _ _ h3, planSet_ne _ _ h2, planSet_ne _ _ h1]
  · rw [if_neg hpt]

theorem adjOS_nvme (pt : String) (p : Plan)
    (hp : ∀ v, p Comp.nvme = some v → (1699 : ℚ) ≤ v) :
    ∀ v, adjustOfficeServer pt p Comp.nvme = some v → (1699 : ℚ) ≤ v := by
  intro v h
  unfold adjustOfficeServer at h
  by_cases hpt : pt = officeT ∨ pt = serverT
  · rw [if_pos hpt] at h
    dsimp only at h
    rw [planSet_ne _ _ (by decide : Comp.nvme ≠ Comp.gpu)] at h
    cases hn : p Comp.nvme with
    | none =>
      rw [hn] at h
      dsimp only at h
      rw [planSet_ne _ _ (by decide : Comp.nvme ≠ Comp.gpu)] at h
      rw [hn] at h
      cases h
    | some w =>
      rw [hn] at h
      dsimp only at h
      rw [planSet_ne _ _ (by decide : Comp.nvme ≠ Comp.ssd), planSet_same] at h
      cases h
      exact le_min (hp w hn) (by norm_num)
  · rw [if_neg hpt] at h
    exact hp v h

theorem adjOS_nonneg (pt : String) (p : Plan)
    (hp : ∀ c v, p c = some v → (0 : ℚ) ≤ v) :
    ∀ c v, adjustOfficeServer pt p c = some v → (0 : ℚ) ≤ v := by
  intro c v h
  unfold adjustOfficeServer at h
  by_cases hpt : pt = officeT ∨ pt = serverT
  · rw [if_pos hpt] at h
    dsimp only at h
    rw [planSet_ne _ _ (by decide : Comp.nvme ≠ Comp.gpu)] at h
    have hpa : ∀ c0 v0, planSet p .gpu (min (planGetD p .gpu) 5000) c0 = some v0 →
        (0 : ℚ) ≤ v0 := by
      intro c0 v0 h0
      by_cases hce : c0 = Comp.gpu
      · subst hce
        rw [planSet_same] at h0
        cases h0
        exact le_min (planGetD_nonneg p _ (hp _)) (by norm_num)
      · rw [planSet_ne _ _ hce] at h0
        exact hp c0 v0 h0
    cases hn : p Comp.nvme with
    | none =>
      rw [hn] at h
      exact hpa c v h
    | some w =>
      rw [hn] at h
      dsimp only at h
      have hw : (0 : ℚ) ≤ w := hp _ w hn
      have hpb : ∀ c0 v0,
          planSet (planSet p .gpu (min (planGetD p .gpu) 5000)) .nvme (min w 10000) c0 =
            some v0 → (0 : ℚ) ≤ v0 := by
        intro c0 v0 h0
        by_cases hce : c0 = Comp.nvme
        · subst hce
          rw [planSet_same] at h0
          cases h0
          exact le_min hw (by norm_num)
        · rw [planSet_ne _ _ hce] at h0
          exact hpa c0 v0 h0
      by_cases hcs : c = Comp.ssd
      · subst hcs
        rw [planSet_same] at h
        cases h
        have h2 : (0 : ℚ) ≤ ((⌊min w 10000 / 2⌋ : ℤ) : ℚ) := by
          have hh : (0 : ℤ) ≤ ⌊min w 10000 / 2⌋ := by
            rw [Int.le_floor]
            push_cast
            have : (0 : ℚ) ≤ min w 10000 := le_min hw (by norm_num)
            linarith
          exact_mod_cast hh
        exact add_nonneg (planGetD_nonneg _ _ (hpb Comp.ssd)) h2
      · rw [planSet_ne _ _ hcs] at h
        exact hpb c v h
  · rw [if_neg hpt] at h
    exact hp c v h

theorem adjG_other (pt : String) (p : Plan) (c : Comp)
    (h2 : c ≠ Comp.nvme) (h3 : c ≠ Comp.ssd) :
    adjustGaming pt p c = p c := by
  unfold adjustGaming
  by_cases hpt : pt = gamingT
  · rw [if_pos hpt]
    by_cases hs : planGetD (planSet p .nvme (max (planGetD p .nvme) 15000)) Comp.ssd > 5000
    · rw [if_pos hs, planSet_ne _ _ h3, planSet_ne _ _ h2]
    · rw [if_neg hs, planSet_ne _ _ h2]
  · rw [if_neg hpt]

theorem adjG_nvme (pt : String) (p : Plan)
    (hp : ∀ v, p Comp.nvme = some v → (1699 : ℚ) ≤ v) :
    ∀ v, adjustGaming pt p Comp.nvme = some v → (1699 : ℚ) ≤ v := by
  intro v h
  unfold adjustGaming at h
  by_cases hpt : pt = gamingT
  · rw [if_pos hpt] at h
    by_cases hs : planGetD (planSet p .nvme (max (planGetD p .nvme) 15000)) Comp.ssd > 5000
    · rw [if_pos hs, planSet_ne _ _ (by decide : Comp.nvme ≠ Comp.ssd), planSet_same] at h
      cases h
      exact le_trans (by norm_num) (le_max_right _ _)
    · rw [if_neg hs, planSet_same] at h
      cases h
      exact le_trans (by norm_num) (le_max_right _ _)
  · rw [if_neg hpt] at h
    exact hp v h

theorem adjG_nonneg (pt : String) (p : Plan)
    (hp : ∀ c v, p c = some v → (0 : ℚ) ≤ v) :
    ∀ c v, adjustGaming pt p c = some v → (0 : ℚ) ≤ v := by
  intro c v h
  unfold adjustGaming at h
  by_cases hpt : pt = gamingT
  · rw [if_pos hpt] at h
    have hp2 : ∀ c0 v0, planSet p .nvme (max (planGetD p .nvme) 15000) c0 = some v0 →
        (0 : ℚ) ≤ v0 := by
      intro c0 v0 h0
      by_cases hce : c0 = Comp.nvme
      · subst hce
        rw [planSet_same] at h0
        cases h0
        exact le_trans (by norm_num) (le_max_right _ _)
      · rw [planSet_ne _ _ hce] at h0
        exact hp c0 v0 h0
    by_cases hs : planGetD (planSet p .nvme (max (planGetD p .nvme) 15000)) Comp.ssd > 5000
    · rw [if_pos hs] at h
      by_cases hcs : c = Comp.ssd
      · subst hcs
        rw [planSet_same] at h
        cases h
        unfold planGetD at hs ⊢
        linarith
      · rw [planSet_ne _ _ hcs] at h
        exact hp2 c v h
    · rw [if_neg hs] at h
      exact hp2 c v h
  · rw [if_neg hpt] at h
    exact hp c v h

/-! ## Claim C9 -/

/-- Claim C9: for every profile and total budget, every entry of the plan
returned by `get_budget_distribution` is non-negative. -/
theorem C9_plan_entries_nonneg : ∀ (pt : String) (total : ℤ) (c : Comp) (v : ℚ),
    get_budget_distribution pt total c = some v → (0 : ℚ) ≤ v := by
  intro pt total c v h
  unfold get_budget_distribution at h
  exact adjG_nonneg pt _
    (adjOS_nonneg pt _ (fun c0 v0 h0 =>
      scaleStep_nonneg total c0 _ (applyMins_nonneg _ c0) v0 h0)) c v h

/-- Witness for C9 at the gaming profile with budget 25000. -/
theorem C9_plan_entries_nonneg_witness :
    get_budget_distribution gamingT 25000 Comp.cpu = some 5000 ∧ (0 : ℚ) ≤ 5000 :=
  ⟨by decide, C9_plan_entries_nonneg gamingT 25000 Comp.cpu 5000 (by decide)⟩

/-! ## Claim C3 -/

/-- Counterexample to claim C3: with the gaming profile and total budget
25000 — which is at least the sum 23592 of all category minimums — the
case category ends at 354.6, below its documented floor 1899, because the
floor-raises of gpu, nvme and hdd run after case was floored and fund
their shortfalls from case. -/
theorem C3_counterexample :
    (minOrder.map minBudget).sum ≤ (25000 : ℚ) ∧
    get_budget_distribution gamingT 25000 Comp.case_ = some (1773/5) ∧
    ¬ minBudget Comp.case_ ≤ 1773/5 :=
  ⟨by decide, by decide, by decide⟩

/-- Claim C3 as amended: after `get_budget_distribution`, every category
present in the plan other than hdd, case and gpu and ssd receives at
least its documented minimum floor, for every profile and every budget
(no budget-sum proviso is needed for these categories).  hdd and case can
be driven below their floors by funding later shortfalls and by the
over-100000 scaling, gpu by the office/server cap of 5000 < 5499, and ssd
by the server-profile transfer that can create it at less than 950. -/
theorem C3_floors_amended : ∀ (pt : String) (total : ℤ) (c : Comp) (v : ℚ),
    get_budget_distribution pt total c = some v →
    c ≠ Comp.hdd → c ≠ Comp.case_ → c ≠ Comp.gpu → c ≠ Comp.ssd →
    minBudget c ≤ v := by
  intro pt total c v h hh hc hg hs
  unfold get_budget_distribution at h
  cases c with
  | hdd => exact absurd rfl hh
  | case_ => exact absurd rfl hc
  | gpu => exact absurd rfl hg
  | ssd => exact absurd rfl hs
  | cpu =>
    rw [adjG_other pt _ _ (by decide) (by decide),
      adjOS_other pt _ _ (by decide) (by decide) (by decide)] at h
    have hb := scaleStep_bound total Comp.cpu 2699 (by norm_num) (by decide) (by decide) _
      (fun v0 h0 => by exact_mod_cast applyMins_cpu _ v0 h0) v h
    show (2699 : ℚ) ≤ v
    exact_mod_cast hb
  | motherboard =>
    rw [adjG_other pt _ _ (by decide) (by decide),
      adjOS_other pt _ _ (by decide) (by decide) (by decide)] at h
    have hb := scaleStep_bound total Comp.motherboard 4499 (by norm_num) (by decide) (by decide) _
      (fun v0 h0 => by exact_mod_cast applyMins_motherboard _ v0 h0) v h
    show (4499 : ℚ) ≤ v
    exact_mod_cast hb
  | ram =>
    rw [adjG_other pt _ _ (by decide) (by decide),
      adjOS_other pt _ _ (by decide) (by decide) (by decide)] at h
    have hb := scaleStep_bound total Comp.ram 450 (by norm_num) (by decide) (by decide) _
      (fun v0 h0 => by exact_mod_cast applyMins_ram _ v0 h0) v h
    show (450 : ℚ) ≤ v
    exact_mod_cast hb
  | cooling_system =>
    rw [adjG_other pt _ _ (by decide) (by decide),
      adjOS_other pt _ _ (by decide) (by decide) (by decide)] at h
    have hb := scaleStep_bound total Comp.cooling_system 299 (by norm_num) (by decide) (by decide) _
      (fun v0 h0 => by exact_mod_cast applyMins_cooling _ v0 h0) v h
    show (299 : ℚ) ≤ v
    exact_mod_cast hb
  | psu =>
    rw [adjG_other pt _ _ (by decide) (by decide),
      adjOS_other pt _ _ (by decide) (by decide) (by decide)] at h
    have hb := scaleStep_bound total Comp.psu 899 (by norm_num) (by decide) (by decide) _
      (fun v0 h0 => by exact_mod_cast applyMins_psu _ v0 h0) v h
    show (899 : ℚ) ≤ v
    exact_mod_cast hb
  | nvme =>
    have hb := adjG_nvme pt _
      (adjOS_nvme pt _ (fun v0 h0 => by
        exact_mod_cast scaleStep_bound total Comp.nvme 1699 (by norm_num) (by decide)
          (by decide) _ (fun v1 h1 => by exact_mod_cast applyMins_nvme _ v1 h1) v0 h0)) v h
    show (1699 : ℚ) ≤ v
    exact hb

/-- Witness for the amended C3 at the gaming profile with budget 25000. -/
theorem C3_floors_amended_witness :
    get_budget_distribution gamingT 25000 Comp.cpu = some 5000 ∧
    minBudget Comp.cpu ≤ 5000 :=
  ⟨by decide, C3_floors_amended gamingT 25000 Comp.cpu 5000 (by decide)
    (by decide) (by decide) (by decide) (by decide)⟩

/-! ## Claim C4 -/

/-- Counterexample to claim C4: the server profile's percentage shares sum
to 0.99, not 1.0 (and the home profile's to 1.02). -/
theorem C4_counterexample :
    percSum (distributionFor serverT) = 99/100 ∧ (99/100 : ℚ) ≠ 1 :=
  ⟨by decide, by decide⟩

/-- Claim C4 as amended: of the six known profiles, gaming, graphics,
office and programming sum to exactly 1.0, while server sums to 0.99 and
home to 1.02. -/
theorem C4_share_sums_amended :
    percSum (distributionFor gamingT) = 1 ∧
    percSum (distributionFor graphicsT) = 1 ∧
    percSum (distributionFor officeT) = 1 ∧
    percSum (distributionFor devT) = 1 ∧
    percSum (distributionFor serverT) = 99/100 ∧
    percSum (distributionFor homeT) = 51/50 :=
  ⟨by decide, by decide, by decide, by decide, by decide, by decide⟩

/-! ## Specifications of the stage queries -/

theorem cpuPick_spec {cat : Catalog} {budget : ℚ} {brand : Option String} {gen : String}
    {c : CPURec} (h : cpuPick cat budget brand gen = some c) :
    (c.price : ℚ) ≤ budget ∧ substrB gen c.ram_type = true := by
  have hm := pick1_mem h
  rw [List.mem_filter] at hm
  obtain ⟨-, hp⟩ := hm
  simp only [Bool.and_eq_true, decide_eq_true_eq] at hp
  exact ⟨hp.1.1, hp.2⟩

theorem mbPick_spec {cat : Catalog} {budget : ℚ} {socket gen : String}
    {m : MBRec} (h : mbPick cat budget socket gen = some m) :
    m.socket = socket ∧ substrB gen m.ram_type = true ∧ (m.price : ℚ) ≤ budget := by
  have hm := pick1_mem h
  rw [List.mem_filter] at hm
  obtain ⟨-, hp⟩ := hm
  simp only [Bool.and_eq_true, decide_eq_true_eq, beq_iff_eq] at hp
  exact ⟨hp.1.1, hp.1.2, hp.2⟩

theorem ramPick_spec {cat : Catalog} {budget : ℚ} {gen : String} {maxFreq : ℚ}
    {modLimit : ℤ} {r : RAMRec} (h : ramPick cat budget gen maxFreq modLimit = some r) :
    substrB gen r.ram_type = true ∧ r.clock_freq ≤ maxFreq ∧
      (r.price : ℚ) ≤ budget ∧ r.moduls_in_set ≤ modLimit := by
  have hm := pick1_mem h
  rw [List.mem_filter] at hm
  obtain ⟨-, hp⟩ := hm
  simp only [Bool.and_eq_true, decide_eq_true_eq] at hp
  exact ⟨hp.1.1.1, hp.1.1.2, hp.1.2, hp.2⟩

theorem tryGen_spec {cat : Catalog} {plan : Plan} {brand : Option String} {total : ℤ}
    {gen : String} {c : CPURec} {m : MBRec} {r : RAMRec}
    (h : tryGen cat plan brand total gen = some (c, m, r)) :
    substrB gen c.ram_type = true ∧ m.socket = c.socket ∧ substrB gen m.ram_type = true ∧
      substrB gen r.ram_type = true ∧ r.clock_freq ≤ m.max_ram_freq := by
  unfold tryGen at h
  split at h
  · cases h
  · next c0 hc =>
    split at h
    · cases h
    · next m0 hmb =>
      split at h
      · cases h
      · next r0 hr =>
        cases h
        obtain ⟨-, hcs⟩ := cpuPick_spec hc
        obtain ⟨hms, hmr, -⟩ := mbPick_spec hmb
        obtain ⟨hrs, hrf, -, -⟩ := ramPick_spec hr
        exact ⟨hcs, hms, hmr, hrs, hrf⟩

theorem stage1_spec {cat : Catalog} {plan : Plan} {brand : Option String} {total : ℤ}
    {c : CPURec} {m : MBRec} {r : RAMRec}
    (h : stage1 cat plan brand total = some (c, m, r)) :
    ∃ gen, (gen = "DDR5" ∨ gen = "DDR4") ∧
      substrB gen c.ram_type = true ∧ m.socket = c.socket ∧ substrB gen m.ram_type = true ∧
      substrB gen r.ram_type = true ∧ r.clock_freq ≤ m.max_ram_freq := by
  unfold stage1 at h
  split at h
  · next t heq =>
    cases h
    obtain ⟨h1, h2, h3, h4, h5⟩ := tryGen_spec heq
    exact ⟨"DDR5", Or.inl rfl, h1, h2, h3, h4, h5⟩
  · obtain ⟨h1, h2, h3, h4, h5⟩ := tryGen_spec h
    exact ⟨"DDR4", Or.inr rfl, h1, h2, h3, h4, h5⟩

theorem psuPick_spec {cat : Catalog} {rp budget : ℚ} {u : PSURec}
    (h : psuPick cat rp budget = some u) : rp ≤ u.power := by
  unfold psuPick at h
  split at h
  · next u0 heq =>
    cases h
    have hm := pick1_mem heq
    rw [List.mem_filter] at hm
    obtain ⟨-, hp⟩ := hm
    simp only [Bool.and_eq_true, decide_eq_true_eq] at hp
    exact hp.1
  · have hm := pick1_mem h
    rw [List.mem_filter] at hm
    obtain ⟨-, hp⟩ := hm
    simp only [decide_eq_true_eq] at hp
    exact hp

theorem finalize_spec {conf0 conf : Config} (h : finalize conf0 = some conf) :
    conf = conf0 ∧ conf0.cpu.isSome = true ∧ conf0.motherboard.isSome = true ∧
      conf0.ram.isSome = true ∧ conf0.psu.isSome = true := by
  unfold finalize at h
  split at h
  · next hguard =>
    cases h
    simp only [Bool.and_eq_true] at hguard
    exact ⟨rfl, hguard.1.1.1, hguard.1.1.2, hguard.1.2, hguard.2⟩
  · cases h

/-! ## Claim C1 -/

/-- Claim C1: `auto_build_pc` never returns a configuration missing CPU,
motherboard, RAM or PSU; whenever one of the four is missing at the final
check, the call returns `none` instead. -/
theorem C1_required_components_present : ∀ (pt : String) (total : ℤ)
    (brand : Option String) (cat : Catalog) (conf : Config),
    autoBuild pt total brand cat = some conf →
    conf.cpu.isSome = true ∧ conf.motherboard.isSome = true ∧
    conf.ram.isSome = true ∧ conf.psu.isSome = true := by
  intro pt total brand cat conf h
  unfold autoBuild at h
  dsimp only at h
  cases hs1 : stage1 cat (get_budget_distribution pt total) brand total with
  | none => rw [hs1] at h; exact Option.noConfusion h
  | some trip =>
    obtain ⟨c, m, r⟩ := trip
    rw [hs1] at h
    obtain ⟨hconf, h1, h2, h3, h4⟩ := finalize_spec h
    subst hconf
    exact ⟨h1, h2, h3, h4⟩

/-- Witness for C1: a successful gaming build at budget 20000 on `monoCat`. -/
theorem C1_required_components_present_witness :
    ∃ conf, autoBuild gamingT 20000 none monoCat = some conf ∧
      conf.cpu.isSome = true ∧ conf.motherboard.isSome = true ∧
      conf.ram.isSome = true ∧ conf.psu.isSome = true := by
  cases h : autoBuild gamingT 20000 none monoCat with
  | none => exact absurd h (by decide)
  | some conf =>
    obtain ⟨h1, h2, h3, h4⟩ := C1_required_components_present gamingT 20000 none monoCat conf h
    exact ⟨conf, rfl, h1, h2, h3, h4⟩

/-! ## Claim C2 -/

/-- Claim C2: in every configuration returned by `auto_build_pc`, the
motherboard socket equals the CPU socket, one memory generation (DDR5 or
DDR4) is common to the CPU, motherboard and RAM type strings, the RAM
frequency does not exceed the motherboard maximum, and the PSU wattage is
at least the computed requirement. -/
theorem C2_configuration_invariants : ∀ (pt : String) (total : ℤ)
    (brand : Option String) (cat : Catalog) (conf : Config),
    autoBuild pt total brand cat = some conf →
    ∃ c m r u, conf.cpu = some c ∧ conf.motherboard = some m ∧ conf.ram = some r ∧
      conf.psu = some u ∧ m.socket = c.socket ∧
      (∃ gen, (gen = "DDR5" ∨ gen = "DDR4") ∧ substrB gen c.ram_type = true ∧
        substrB gen m.ram_type = true ∧ substrB gen r.ram_type = true) ∧
      r.clock_freq ≤ m.max_ram_freq ∧
      requiredPowerCalc pt (configPower conf) ≤ u.power := by
  intro pt total brand cat conf h
  unfold autoBuild at h
  dsimp only at h
  cases hs1 : stage1 cat (get_budget_distribution pt total) brand total with
  | none => rw [hs1] at h; exact Option.noConfusion h
  | some trip =>
    obtain ⟨c, m, r⟩ := trip
    rw [hs1] at h
    obtain ⟨hconf, h1, h2, h3, h4⟩ := finalize_spec h
    obtain ⟨gen, hgen, hc1, hsock, hm1, hr1, hfreq⟩ := stage1_spec hs1
    obtain ⟨u, hu⟩ := Option.isSome_iff_exists.mp h4
    refine ⟨c, m, r, u, ?_, ?_, ?_, ?_, hsock, ⟨gen, hgen, hc1, hm1, hr1⟩, hfreq, ?_⟩
    · rw [hconf]
    · rw [hconf]
    · rw [hconf]
    · rw [hconf]; exact hu
    · have hps := psuPick_spec hu
      rw [hconf]
      exact hps

/-- Witness for C2 on the successful gaming build at budget 20000. -/
theorem C2_configuration_invariants_witness :
    ∃ conf c m r u, autoBuild gamingT 20000 none monoCat = some conf ∧
      conf.cpu = some c ∧ conf.motherboard = some m ∧ conf.ram = some r ∧
      conf.psu = some u ∧ m.socket = c.socket ∧
      (∃ gen, (gen = "DDR5" ∨ gen = "DDR4") ∧ substrB gen c.ram_type = true ∧
        substrB gen m.ram_type = true ∧ substrB gen r.ram_type = true) ∧
      r.clock_freq ≤ m.max_ram_freq ∧
      requiredPowerCalc gamingT (configPower conf) ≤ u.power := by
  cases h : autoBuild gamingT 20000 none monoCat with
  | none => exact absurd h (by decide)
  | some conf =>
    obtain ⟨c, m, r, u, h1, h2, h3, h4, h5, h6, h7, h8⟩ :=
      C2_configuration_invariants gamingT 20000 none monoCat conf h
    exact ⟨conf, c, m, r, u, rfl, h1, h2, h3, h4, h5, h6, h7, h8⟩

/-! ## Claim C5 -/

/-- Counterexample to claim C5: at an accumulated draw of 401 W under a
profile with no multiplier, the code computes 500 W (rounding 501 down to
a multiple of 50), while the spec's round-up wording gives 550 W. -/
theorem C5_counterexample :
    requiredPowerCalc officeT 401 = 500 ∧ specRequiredPowerUp officeT 401 = 550 ∧
      (500 : ℚ) ≠ 550 :=
  ⟨by decide, by decide, by decide⟩

/-- Claim C5 as amended: the required wattage is the accumulated draw plus
100 W rounded DOWN to a multiple of 50, then adjusted by the profile rule
(gaming ×1.3 floor 650, graphics ×1.2 floor 550, otherwise floor 450). -/
theorem C5_required_power_amended :
    ∀ (pt : String) (tp : ℚ), requiredPowerCalc pt tp = specRequiredPowerDown pt tp := by
  intro pt tp
  unfold requiredPowerCalc specRequiredPowerDown
  split_ifs <;> ring_nf

/-! ## Claim C6 -/

/-- Counterexample to claim C6: with a PSU plan allocation of 0 and a
remaining budget of 1000, the code yields min(899 + 500, 1000) = 1000,
while the spec's half-the-surplus wording yields 899 + 101/2 = 949.5. -/
theorem C6_counterexample :
    psuBudgetCalc 0 1000 = 1000 ∧ specPsuBudgetSurplus 0 1000 = 1899/2 ∧
      (1000 : ℚ) ≠ 1899/2 :=
  ⟨by decide, by decide, by decide⟩

/-- Claim C6 as amended: when the remaining budget exceeds the ceiling,
half of the REMAINING BUDGET (floor-halved) is added, capped at the
remaining budget. -/
theorem C6_psu_budget_amended :
    ∀ (planPsu : ℚ) (remaining : ℤ),
      psuBudgetCalc planPsu remaining = specPsuBudgetRemHalf planPsu remaining := by
  intro planPsu remaining
  unfold psuBudgetCalc specPsuBudgetRemHalf
  dsimp only
  split_ifs with h
  · rw [add_comm]
  · rfl

/-! ## Claim C7 -/

/-- Counterexample to claim C7: on `monoCat` the gaming resolution
succeeds at budget 20000 but fails at the larger budget 60000. -/
theorem C7_counterexample :
    (20000 : ℤ) < 60000 ∧ (autoBuild gamingT 20000 none monoCat).isSome = true ∧
      autoBuild gamingT 60000 none monoCat = none :=
  ⟨by decide, by decide, by decide⟩

/-- Claim C7 as amended: resolution success is NOT monotone in the
budget: there are a catalog and budgets b1 < b2 with resolve succeeding
at b1 and failing at b2. -/
theorem C7_not_monotone :
    ∃ (cat : Catalog) (b1 b2 : ℤ), b1 < b2 ∧
      (autoBuild gamingT b1 none cat).isSome = true ∧
      autoBuild gamingT b2 none cat = none :=
  ⟨monoCat, 20000, 60000, by decide, by decide, by decide⟩

/-! ## Claim C8 -/

/-- Counterexample to claim C8: a store-fault run and a no-match run both
return `none`; the two values are equal, not distinguishable. -/
theorem C8_counterexample :
    autoBuildRun true gamingT 10 none emptyCat = none ∧
      autoBuild gamingT 10 none emptyCat = none :=
  ⟨by decide, by decide⟩

/-- Claim C8 as amended: a catalog-store fault returns exactly the same
value (`none`) as every run in which the catalog is available but no
matching component exists, so the two conditions are indistinguishable to
the caller. -/
theorem C8_fault_indistinguishable :
    ∀ (pt1 : String) (b1 : ℤ) (br1 : Option String) (cat1 : Catalog)
      (pt2 : String) (b2 : ℤ) (br2 : Option String) (cat2 : Catalog),
      autoBuild pt2 b2 br2 cat2 = none →
      autoBuildRun true pt1 b1 br1 cat1 = autoBuild pt2 b2 br2 cat2 := by
  intro pt1 b1 br1 cat1 pt2 b2 br2 cat2 h
  unfold autoBuildRun
  rw [if_pos rfl, h]

/-- Witness for the amended C8 at a concrete no-match run. -/
theorem C8_fault_indistinguishable_witness :
    autoBuild gamingT 10 none emptyCat = none ∧
      autoBuildRun true gamingT 10 none emptyCat = autoBuild gamingT 10 none emptyCat :=
  ⟨by decide, C8_fault_indistinguishable gamingT 10 none emptyCat gamingT 10 none emptyCat
    (by decide)⟩

/-! ## Claim C10 -/

/-- Claim C10: `find_next_ready_pc` with an empty exclusion list returns
exactly the result of `find_best_ready_pc` for the same database, profile
and budget. -/
theorem C10_next_empty_eq_best :
    ∀ (db : PCDb) (profile_type : String) (budget : ℤ),
      find_next_ready_pc db profile_type budget [] =
        find_best_ready_pc db profile_type budget := by
  intro db profile_type budget
  unfold find_next_ready_pc find_best_ready_pc
  cases h : (db.pc_profiles.filter (fun pr => pr.ptype == profile_type)).head? with
  | none => rfl
  | some pr =>
    dsimp only
    congr 1
    apply List.filter_congr
    intro pc _
    simp
